import Mathlib

/-!
Shallow embedding of the Conan packaging recipe in `conanfile.py` of the
bitwizeshift/result repository, together with theorems settling the claims
about its packaging behaviour.

The recipe is straight-line glue code over two external tools (CMake and the
Conan package manager).  We model every external-tool invocation performed by
`ResultConan.package` as an `ExtCall` event; an invocation may fail (a Python
exception raised by the external wrapper), which aborts the remaining
statements of the method body, exactly as Python exception propagation does.
The outcome of each external call is abstracted by an oracle
`fail : ExtCall → Option ε` (`none` = the call succeeds, `some e` = the call
raises the external tool's error `e`).
-/

namespace ResultPkg

/-- An invocation of an external tool performed by the recipe:
`cmake.configure()` (carrying the definitions set on the CMake handle at
that point), `cmake.build()` / `cmake.build(target=...)`, `cmake.install()`,
and `self.copy(pattern=..., dst=...)`. -/
inductive ExtCall where
  | configure (definitions : List (String × String))
  | build (target : Option String)
  | install
  | copy (pattern : String) (dst : String)
  deriving DecidableEq

/-- The build settings an individual build may vary in (consumed by the
external package manager; the recipe's `package` body never branches on
them). -/
structure Settings where
  compiler : String
  arch : String
  build_type : String
  deriving DecidableEq

/-- The static metadata record declared by `class ResultConan(ConanFile)`.
In the Python source `exports` and `build_requires` are single
parenthesised strings; the Conan tool interprets each as a one-element
collection of patterns resp. references, which is how we model them. -/
structure ResultConan where
  name : String
  version : String
  description : String
  url : String
  author : String
  license : String
  exports : List String
  exports_sources : List String
  options : List (String × String)
  default_options : List (String × String)
  generators : String
  build_requires : List String
  deriving DecidableEq

/-- The descriptor values exactly as declared in `conanfile.py` lines 8-29. -/
def resultConan : ResultConan where
  name := "Result"
  version := "0.0.1"
  description := " A lightweight C++11-compatible error-handling mechanism"
  url := "https://github.com/bitwizeshift/Result"
  author := "Matthew Rodusek <matthew.rodusek@gmail.com>"
  license := "MIT"
  exports := ["LICENSE"]
  exports_sources := ["CMakeLists.txt", "cmake/*", "include/*", "test/*", "LICENSE"]
  options := []
  default_options := []
  generators := "cmake"
  build_requires := ["Catch2/2.7.1@catchorg/stable"]

/-- The mutable state of the `CMake(self)` helper object: its `definitions`
dictionary, modelled as an association list. -/
structure CMakeState where
  definitions : List (String × String)
  deriving DecidableEq

/-- A fresh `CMake(self)` handle: no definitions set yet by the recipe. -/
def CMakeState.init : CMakeState := ⟨[]⟩

/-- Dictionary assignment `cmake.definitions[k] = v`: any previous binding of
`k` is replaced. -/
def CMakeState.setDefinition (c : CMakeState) (k v : String) : CMakeState :=
  ⟨(c.definitions.filter (fun p => p.1 ≠ k)) ++ [(k, v)]⟩

/-- Run a straight-line sequence of external calls under the failure oracle
`fail`, with Python exception semantics: each call is invoked in order; the
first call whose oracle result is `some e` raises, ending the sequence.
Returns the list of calls actually invoked and the propagated error, if
any. -/
def runCalls {α ε : Type} (fail : α → Option ε) : List α → List α × Option ε
  | [] => ([], none)
  | c :: cs =>
    match fail c with
    | some e => ([c], some e)
    | none =>
      let r := runCalls fail cs
      (c :: r.1, r.2)

/-- The sequence of external calls that the body of `ResultConan.package`
issues (lines 31-42 of `conanfile.py`): it builds a `CMake` handle, sets
`RESULT_COMPILE_UNIT_TESTS` to `"ON"`, then configures, builds, builds the
`test` target, installs, and copies the `LICENSE` file to `licenses`.  The
body reads nothing from the descriptor or the build settings, so the list is
the same for every `self` and every setting. -/
def ResultConan.packageCalls (_self : ResultConan) (_s : Settings) : List ExtCall :=
  let cmake := CMakeState.init
  let cmake := cmake.setDefinition "RESULT_COMPILE_UNIT_TESTS" "ON"
  [ ExtCall.configure cmake.definitions,
    ExtCall.build none,
    ExtCall.build (some "test"),
    ExtCall.install,
    ExtCall.copy "LICENSE" "licenses" ]

/-- The `package` method: executes its call sequence under the failure
oracle.  It assigns to no attribute of `self`, so the descriptor that results
is the one it was invoked on; the other components are the trace of invoked
external calls and the propagated error, if any. -/
def ResultConan.package {ε : Type} (self : ResultConan) (s : Settings)
    (fail : ExtCall → Option ε) : ResultConan × List ExtCall × Option ε :=
  let r := runCalls fail (self.packageCalls s)
  (self, r.1, r.2)

/-- The identity information of a build of the package, as consumed by the
package manager's binary-identity (package id) computation: the build
settings plus the option values. -/
structure PackageInfo where
  settings : Settings
  options : List (String × String)
  deriving DecidableEq

/-- Model of the external `conans` library call `self.info.header_only()`:
it erases the settings (compiler, architecture, build type) and the options
from the identity information, so that the computed package id is the same
for every build configuration. -/
def PackageInfo.header_only (_i : PackageInfo) : PackageInfo :=
  { settings := ⟨"", "", ""⟩, options := [] }

/-- The `package_id` method (lines 44-45 of `conanfile.py`): it calls
`self.info.header_only()` and nothing else, so the resulting identity key is
the header-only one. -/
def ResultConan.package_id (_self : ResultConan) (info : PackageInfo) : PackageInfo :=
  info.header_only

/-- A Conan package reference string `name/version@user/channel`. -/
def refString (name ver user channel : String) : String :=
  name ++ "/" ++ ver ++ "@" ++ user ++ "/" ++ channel

/-- The static metadata declared by `class ExpectedConanTest(ConanFile)` in
`.conan/test_package/conanfile.py`: the consumed settings and the generator
name. -/
structure ExpectedConanTest where
  settings : List String
  generators : String
  deriving DecidableEq

/-- The test-package descriptor values exactly as declared in
`.conan/test_package/conanfile.py` lines 5-6. -/
def expectedConanTest : ExpectedConanTest where
  settings := ["os", "compiler", "arch", "build_type"]
  generators := "cmake"

/-- The `build` method of the test-package recipe (lines 8-11): a fresh
`CMake` handle (no definitions set), then `configure()` and `build()`, run
under the failure oracle with the same exception semantics as
`ResultConan.package`. -/
def ExpectedConanTest.build {ε : Type} (self : ExpectedConanTest)
    (fail : ExtCall → Option ε) : ExpectedConanTest × List ExtCall × Option ε :=
  let cmake := CMakeState.init
  let r := runCalls fail [ExtCall.configure cmake.definitions, ExtCall.build none]
  (self, r.1, r.2)

/-- The `imports` method of the test-package recipe (lines 13-14): its body
is `pass`, so it mutates no attribute of `self`, invokes no external call,
raises nothing, and returns Python's `None` (the absent `Option` value). -/
def ExpectedConanTest.imports {ε : Type} (self : ExpectedConanTest)
    (_fail : ExtCall → Option ε) : ExpectedConanTest × List ExtCall × Option ε :=
  (self, [], none)

/-- The `test` method of the test-package recipe (lines 16-17): its body is
`pass`, a no-op exactly like `ExpectedConanTest.imports`. -/
def ExpectedConanTest.test {ε : Type} (self : ExpectedConanTest)
    (_fail : ExtCall → Option ε) : ExpectedConanTest × List ExtCall × Option ε :=
  (self, [], none)

/-! ### Helper lemmas about `runCalls` -/

/-- The trace of a straight-line run is always a prefix (an initial `take`)
of the intended call list. -/
lemma runCalls_trace_take {α ε : Type} (fail : α → Option ε) :
    ∀ l : List α, ∃ k, (runCalls fail l).1 = l.take k := by
  intro l
  induction l with
  | nil => exact ⟨0, rfl⟩
  | cons c cs ih =>
    cases h : fail c with
    | some e => exact ⟨1, by simp [runCalls, h]⟩
    | none =>
      obtain ⟨k, hk⟩ := ih
      exact ⟨k + 1, by simp [runCalls, h, hk]⟩

/-- If a straight-line run propagates an error, then the call list splits as
`pre ++ call :: post` where every call of `pre` succeeded, `call` is the
first failing call, exactly its error is propagated, and the trace ends at
`call`: nothing in `post` was invoked. -/
lemma runCalls_some_split {α ε : Type} (fail : α → Option ε) (err : ε) :
    ∀ l : List α, (runCalls fail l).2 = some err →
      ∃ pre call post, l = pre ++ call :: post ∧
        (runCalls fail l).1 = pre ++ [call] ∧
        (∀ c ∈ pre, fail c = none) ∧ fail call = some err := by
  intro l
  induction l with
  | nil => intro h; simp [runCalls] at h
  | cons c cs ih =>
    intro h
    cases hc : fail c with
    | some e =>
      have he : e = err := by
        simp [runCalls, hc] at h; exact h
      exact ⟨[], c, cs, by simp, by simp [runCalls, hc], by simp, by rw [hc, he]⟩
    | none =>
      have h2 : (runCalls fail cs).2 = some err := by
        simpa [runCalls, hc] using h
      obtain ⟨pre, call, post, hsplit, htrace, hpre, hcall⟩ := ih h2
      refine ⟨c :: pre, call, post, by simp [hsplit], ?_, ?_, hcall⟩
      · simp [runCalls, hc, htrace]
      · intro c' hc'
        rcases List.mem_cons.mp hc' with h' | h'
        · rw [h']; exact hc
        · exact hpre c' h'

/-! ### Claims -/

/-- Claim C1: the `package` operation performs its steps in the fixed order
configure, then build, then run tests, then install (then the license copy);
under every failure oracle the trace of invoked calls is an initial segment
of that fixed sequence, so no step is ever invoked before a step that
precedes it in this order. -/
theorem package_steps_fixed_order (c : ResultConan) (s : Settings) (ε : Type)
    (fail : ExtCall → Option ε) :
    ∃ k, (c.package s fail).2.1 =
      ([ ExtCall.configure [("RESULT_COMPILE_UNIT_TESTS", "ON")],
         ExtCall.build none,
         ExtCall.build (some "test"),
         ExtCall.install,
         ExtCall.copy "LICENSE" "licenses" ] : List ExtCall).take k := by
  obtain ⟨k, hk⟩ := runCalls_trace_take fail (c.packageCalls s)
  exact ⟨k, by simpa [ResultConan.package, ResultConan.packageCalls,
    CMakeState.init, CMakeState.setDefinition] using hk⟩

/-- Claim C2: if the `package` sequence propagates an error, then the
intended call list splits around a first failing call: every call before it
succeeded, the propagated error is exactly the external tool's error at that
call (surfaced unmodified, no retry), and the trace of invoked calls stops
at the failing call, so no subsequent step is ever invoked. -/
theorem package_short_circuits_on_failure (c : ResultConan) (s : Settings)
    (ε : Type) (fail : ExtCall → Option ε) (err : ε)
    (h : (c.package s fail).2.2 = some err) :
    ∃ pre call post, c.packageCalls s = pre ++ call :: post ∧
      (c.package s fail).2.1 = pre ++ [call] ∧
      (∀ e ∈ pre, fail e = none) ∧ fail call = some err := by
  have h' : (runCalls fail (c.packageCalls s)).2 = some err := h
  obtain ⟨pre, call, post, hsplit, htrace, hpre, hcall⟩ :=
    runCalls_some_split fail err (c.packageCalls s) h'
  exact ⟨pre, call, post, hsplit, htrace, hpre, hcall⟩

/-- A concrete failure oracle under which the configure step raises the
error `"configure failed"` and every other external call succeeds. -/
def failingConfigure : ExtCall → Option String
  | ExtCall.configure _ => some "configure failed"
  | _ => none

/-- A concrete build setting used to instantiate the claims. -/
def settingsEx : Settings := ⟨"gcc", "x86_64", "Release"⟩

/-- Witness for claim C2 at a concrete input: with a failing configure step,
`package` propagates exactly the configure error, and the split guaranteed
by the theorem exists (here `pre = []`, so build, test, install and the copy
are never invoked). -/
theorem package_short_circuits_on_failure_witness :
    ∃ pre call post,
      resultConan.packageCalls settingsEx = pre ++ call :: post ∧
      (resultConan.package settingsEx failingConfigure).2.1 = pre ++ [call] ∧
      (∀ e ∈ pre, failingConfigure e = none) ∧
      failingConfigure call = some "configure failed" :=
  package_short_circuits_on_failure resultConan settingsEx String
    failingConfigure "configure failed" (by rfl)

/-- Claim C3: the package identity computation ignores compiler,
architecture and build-type variation: two builds whose identity inputs
agree on the options and differ only in the build settings are assigned the
same identity key by `package_id`. -/
theorem package_id_ignores_settings (c : ResultConan) (i₁ i₂ : PackageInfo)
    (h : i₁.options = i₂.options) :
    c.package_id i₁ = c.package_id i₂ := by
  simp [ResultConan.package_id, PackageInfo.header_only]

/-- Witness for claim C3 at concrete inputs: two identity records with the
same (empty) options but different compiler, architecture and build type
receive the same package identity key. -/
theorem package_id_ignores_settings_witness :
    resultConan.package_id ⟨⟨"gcc", "x86_64", "Release"⟩, []⟩ =
      resultConan.package_id ⟨⟨"clang", "armv8", "Debug"⟩, []⟩ :=
  package_id_ignores_settings resultConan
    ⟨⟨"gcc", "x86_64", "Release"⟩, []⟩ ⟨⟨"clang", "armv8", "Debug"⟩, []⟩ rfl

/-- Claim C4: `package` never mutates the package descriptor metadata: under
every failure oracle, the descriptor after the call has the same `name`,
`version`, `description`, `url`, `author`, `license`, `exports`,
`exports_sources`, `options` and `generators` values as before it. -/
theorem package_preserves_descriptor (c : ResultConan) (s : Settings)
    (ε : Type) (fail : ExtCall → Option ε) :
    (c.package s fail).1.name = c.name ∧
    (c.package s fail).1.version = c.version ∧
    (c.package s fail).1.description = c.description ∧
    (c.package s fail).1.url = c.url ∧
    (c.package s fail).1.author = c.author ∧
    (c.package s fail).1.license = c.license ∧
    (c.package s fail).1.exports = c.exports ∧
    (c.package s fail).1.exports_sources = c.exports_sources ∧
    (c.package s fail).1.options = c.options ∧
    (c.package s fail).1.generators = c.generators := by
  refine ⟨rfl, rfl, rfl, rfl, rfl, rfl, rfl, rfl, rfl, rfl⟩

/-- Claim C5: the declared descriptor's `name`, `version`, `url` and
`license` fields are each non-empty strings. -/
theorem descriptor_required_fields_nonempty :
    resultConan.name ≠ "" ∧ resultConan.version ≠ "" ∧
    resultConan.url ≠ "" ∧ resultConan.license ≠ "" := by
  refine ⟨?_, ?_, ?_, ?_⟩ <;> decide

/-- Claim C6: the declared exportable source manifest lists exactly the
build-description file, the cmake directory, the headers directory, the
test directory and the LICENSE file. -/
theorem exports_sources_manifest :
    resultConan.exports_sources =
      ["CMakeLists.txt", "cmake/*", "include/*", "test/*", "LICENSE"] := rfl

/-- Claim C7: exactly one upstream build dependency is declared, and it is
the Catch2 unit-test framework pinned to version 2.7.1 on the
catchorg/stable channel. -/
theorem single_pinned_build_requirement :
    resultConan.build_requires.length = 1 ∧
    resultConan.build_requires =
      [refString "Catch2" "2.7.1" "catchorg" "stable"] := by
  refine ⟨rfl, ?_⟩ ; decide

/-- Claim C8: the test step is unconditional: for every descriptor and every
build setting, the call sequence that `package` issues is the same fixed
list, whose first call is a configure carrying the
`RESULT_COMPILE_UNIT_TESTS = "ON"` definition set before it, and in which
the build of the `test` target sits between the plain build and the
install. -/
theorem package_test_step_unconditional (c : ResultConan) (s : Settings) :
    c.packageCalls s =
      [ ExtCall.configure [("RESULT_COMPILE_UNIT_TESTS", "ON")],
        ExtCall.build none,
        ExtCall.build (some "test"),
        ExtCall.install,
        ExtCall.copy "LICENSE" "licenses" ] := by
  simp [ResultConan.packageCalls, CMakeState.init, CMakeState.setDefinition]

/-- Claim C9: the copy of the LICENSE file into the `licenses` destination
is the final step of `package`: under every failure oracle it is invoked,
and is then the last invoked call, exactly when configure, build, the test
build and install all succeeded. -/
theorem license_copy_final_iff_all_ok (c : ResultConan) (s : Settings)
    (ε : Type) (fail : ExtCall → Option ε) :
    (ExtCall.copy "LICENSE" "licenses" ∈ (c.package s fail).2.1 ↔
      (fail (ExtCall.configure [("RESULT_COMPILE_UNIT_TESTS", "ON")]) = none ∧
       fail (ExtCall.build none) = none ∧
       fail (ExtCall.build (some "test")) = none ∧
       fail ExtCall.install = none)) ∧
    ((c.package s fail).2.1.getLast? = some (ExtCall.copy "LICENSE" "licenses") ↔
      (fail (ExtCall.configure [("RESULT_COMPILE_UNIT_TESTS", "ON")]) = none ∧
       fail (ExtCall.build none) = none ∧
       fail (ExtCall.build (some "test")) = none ∧
       fail ExtCall.install = none)) := by
  simp only [ResultConan.package, ResultConan.packageCalls,
    CMakeState.init, CMakeState.setDefinition, List.filter, List.nil_append]
  cases h1 : fail (ExtCall.configure [("RESULT_COMPILE_UNIT_TESTS", "ON")]) <;>
    cases h2 : fail (ExtCall.build none) <;>
      cases h3 : fail (ExtCall.build (some "test")) <;>
        cases h4 : fail ExtCall.install <;>
          cases h5 : fail (ExtCall.copy "LICENSE" "licenses") <;>
            simp [runCalls, h1, h2, h3, h4, h5]

/-- Claim C10: the test-package recipe's verification operations are no-ops:
for every invocation (any recipe state and any failure oracle), `imports`
and `test` of `ExpectedConanTest` leave the recipe state unchanged, invoke
no external call, raise nothing, and return `None`, so a successful
configure-and-build alone constitutes the package test. -/
theorem test_package_ops_noop (t : ExpectedConanTest) (ε : Type)
    (fail : ExtCall → Option ε) :
    t.imports fail = (t, [], none) ∧ t.test fail = (t, [], none) :=
  ⟨rfl, rfl⟩

end ResultPkg
